import Mathlib

/-!
Verification of the replay chat completion client
(src/8.agents-towards-production/python/packages/autogen-ext/src/autogen_ext/
models/replay/_replay_chat_completion_client.py).

The Python class ReplayChatCompletionClient is embedded shallowly: the mutable
object becomes a state record, each method becomes a function from the state
to a result paired with the new state, a raised ValueError becomes an
Except.error, and the async generator of create_stream becomes the list of
items it yields when fully consumed. Python token counts are Nat. Content of
a message or of a pre-built result is either a string or some non-string
payload (function calls and the like) that the client never inspects; the
latter is abstracted as a single constructor. The external helper
validate_model_info and the logging calls have no effect on client state and
are not modelled.
-/

/-- Content of a message or of a result record: a string, or a non-string
payload (the code only ever asks whether it is a string, never looks inside
a non-string payload). -/
inductive Content where
  | str (s : String)
  | other
deriving DecidableEq

/-- A message-like object: the only attribute the client reads is content. -/
structure LLMMessage where
  content : Content
deriving DecidableEq

/-- RequestUsage from autogen_core.models: a prompt and a completion token
count. -/
structure RequestUsage where
  prompt_tokens : Nat
  completion_tokens : Nat
deriving DecidableEq

/-- CreateResult from autogen_core.models, restricted to the fields this
client reads or writes: finish_reason, content, usage, cached. -/
structure CreateResult where
  finish_reason : String
  content : Content
  usage : RequestUsage
  cached : Bool
deriving DecidableEq

/-- One entry of the chat_completions list: a raw string or a pre-built
CreateResult (the Union type of the Python constructor argument). -/
inductive ChatCompletion where
  | text (s : String)
  | prebuilt (r : CreateResult)
deriving DecidableEq

/-- ModelInfo from autogen_core.models: the capability flags and family tag
the client stores and returns. -/
structure ModelInfo where
  vision : Bool
  function_calling : Bool
  json_output : Bool
  family : String
  structured_output : Bool
deriving DecidableEq

/-- ModelFamily.UNKNOWN from autogen_core.models. -/
def ModelFamily.UNKNOWN : String := "unknown"

/-- The client state: every attribute written by the Python constructor. -/
structure ReplayChatCompletionClient where
  chat_completions : List ChatCompletion
  provided_message_count : Nat
  model_info : ModelInfo
  total_available_tokens : Nat
  cur_usage : RequestUsage
  total_usage : RequestUsage
  current_index : Nat
  cached_bool_value : Bool
  create_calls : List (List LLMMessage)
deriving DecidableEq

/-- The Python constructor. validate_model_info is external to this
repository and leaves the state unchanged when it succeeds, so it is not
modelled; when model_info is absent the documented default descriptor is
built. -/
def ReplayChatCompletionClient.init
    (chat_completions : List ChatCompletion)
    (model_info : Option ModelInfo) : ReplayChatCompletionClient :=
  { chat_completions := chat_completions
    provided_message_count := chat_completions.length
    model_info := model_info.getD
      { vision := false
        function_calling := false
        json_output := false
        family := ModelFamily.UNKNOWN
        structured_output := false }
    total_available_tokens := 10000
    cur_usage := { prompt_tokens := 0, completion_tokens := 0 }
    total_usage := { prompt_tokens := 0, completion_tokens := 0 }
    current_index := 0
    cached_bool_value := true
    create_calls := [] }

/-- Helper for pySplit: walk the characters, acc holding the current word
reversed; a whitespace character closes the current word (if any), and the
end of input closes the last word. -/
def pySplitAux : List Char → List Char → List String
  | acc, [] => if acc.isEmpty then [] else [String.mk acc.reverse]
  | acc, c :: rest =>
      if c.isWhitespace then
        if acc.isEmpty then pySplitAux [] rest
        else String.mk acc.reverse :: pySplitAux [] rest
      else pySplitAux (c :: acc) rest

/-- Python str.split() with no argument: split on runs of whitespace,
discarding empty pieces. -/
def pySplit (s : String) : List String :=
  pySplitAux [] s.toList

/-- The three input shapes accepted by the _tokenize method: a bare string,
a single message-like object, or a sequence of messages. -/
inductive TokenizeInput where
  | str (s : String)
  | msg (m : LLMMessage)
  | msgs (l : List LLMMessage)

/-- The body of the for loop in the sequence branch of _tokenize: a message
with string content appends its pieces to all_tokens and adds their number
to total_tokens; any other content only logs a warning and leaves the
accumulators untouched. -/
def tokenizeStep (acc : List String × Nat) (message : LLMMessage) :
    List String × Nat :=
  match message.content with
  | .str s =>
      let tokens := pySplit s
      (acc.1 ++ tokens, acc.2 + tokens.length)
  | .other => acc

/-- The _tokenize method: returns the flat token list and the total count.
A message whose content is not a string only logs a warning and contributes
nothing. -/
def tokenize : TokenizeInput → List String × Nat
  | .str s =>
      let tokens := pySplit s
      (tokens, tokens.length)
  | .msg m =>
      match m.content with
      | .str s =>
          let tokens := pySplit s
          (tokens, tokens.length)
      | .other => ([], 0)
  | .msgs l => l.foldl tokenizeStep ([], 0)

/-- The _update_total_usage method: add the current usage into the total. -/
def ReplayChatCompletionClient.update_total_usage
    (c : ReplayChatCompletionClient) : ReplayChatCompletionClient :=
  { c with total_usage :=
      { prompt_tokens := c.total_usage.prompt_tokens + c.cur_usage.prompt_tokens
        completion_tokens :=
          c.total_usage.completion_tokens + c.cur_usage.completion_tokens } }

/-- The create method. Parameters other than messages (tools, tool_choice,
json_output, extra_create_args, cancellation_token) never influence the
result or the state beyond being recorded in the call log alongside the
messages and possibly logging a warning, so the call-log entry is modelled
as the messages argument. A raised ValueError is an Except.error leaving
the state unchanged. -/
def ReplayChatCompletionClient.create (c : ReplayChatCompletionClient)
    (messages : List LLMMessage) :
    Except String CreateResult × ReplayChatCompletionClient :=
  if h : c.current_index < c.chat_completions.length then
    let response := c.chat_completions[c.current_index]
    let prompt_token_count := (tokenize (.msgs messages)).2
    match response with
    | .text s =>
        let output_token_count := (tokenize (.str s)).2
        let cur : RequestUsage :=
          { prompt_tokens := prompt_token_count
            completion_tokens := output_token_count }
        let result : CreateResult :=
          { finish_reason := "stop", content := .str s, usage := cur
            cached := c.cached_bool_value }
        let c2 := ({ c with cur_usage := cur }).update_total_usage
        (.ok result,
          { c2 with current_index := c2.current_index + 1
                    create_calls := c2.create_calls ++ [messages] })
    | .prebuilt r =>
        let cur : RequestUsage :=
          { prompt_tokens := prompt_token_count
            completion_tokens := r.usage.completion_tokens }
        let c2 := ({ c with cur_usage := cur }).update_total_usage
        (.ok r,
          { c2 with current_index := c2.current_index + 1
                    create_calls := c2.create_calls ++ [messages] })
  else
    (.error "No more mock responses available", c)

/-- One value yielded by the create_stream generator: a string chunk or the
final CreateResult. -/
inductive StreamItem where
  | chunk (s : String)
  | result (r : CreateResult)
deriving DecidableEq

/-- The enumerate loop of create_stream: every token except the last is
yielded with a single trailing space, the last one bare. -/
def spacedTokens : List String → List String
  | [] => []
  | [token] => [token]
  | token :: rest => (token ++ " ") :: spacedTokens rest

/-- The create_stream method, modelled as the full list of items the
generator yields when consumed to completion, paired with the state after
the generator body finishes (current usage set before yielding, total usage
updated after the final yield, cursor advanced at the very end; the call
log is not touched). -/
def ReplayChatCompletionClient.create_stream (c : ReplayChatCompletionClient)
    (messages : List LLMMessage) :
    Except String (List StreamItem) × ReplayChatCompletionClient :=
  if h : c.current_index < c.chat_completions.length then
    let response := c.chat_completions[c.current_index]
    let prompt_token_count := (tokenize (.msgs messages)).2
    match response with
    | .text s =>
        let output := tokenize (.str s)
        let cur : RequestUsage :=
          { prompt_tokens := prompt_token_count
            completion_tokens := output.2 }
        let items :=
          (spacedTokens output.1).map StreamItem.chunk ++
            [StreamItem.result
              { finish_reason := "stop", content := .str s, usage := cur
                cached := c.cached_bool_value }]
        let c2 := ({ c with cur_usage := cur }).update_total_usage
        (.ok items, { c2 with current_index := c2.current_index + 1 })
    | .prebuilt r =>
        let cur : RequestUsage :=
          { prompt_tokens := prompt_token_count
            completion_tokens := r.usage.completion_tokens }
        let c2 := ({ c with cur_usage := cur }).update_total_usage
        (.ok [StreamItem.result r], { c2 with current_index := c2.current_index + 1 })
  else
    (.error "No more mock responses available", c)

/-- The actual_usage accessor. -/
def ReplayChatCompletionClient.actual_usage
    (c : ReplayChatCompletionClient) : RequestUsage := c.cur_usage

/-- The reset method: zero both usage counters and rewind the cursor. -/
def ReplayChatCompletionClient.reset
    (c : ReplayChatCompletionClient) : ReplayChatCompletionClient :=
  { c with cur_usage := { prompt_tokens := 0, completion_tokens := 0 }
           total_usage := { prompt_tokens := 0, completion_tokens := 0 }
           current_index := 0 }

/-- The serialized configuration: chat_completions and model_info only. -/
structure ReplayChatCompletionClientConfig where
  chat_completions : List ChatCompletion
  model_info : Option ModelInfo
deriving DecidableEq

/-- The _to_config method. -/
def ReplayChatCompletionClient.to_config
    (c : ReplayChatCompletionClient) : ReplayChatCompletionClientConfig :=
  { chat_completions := c.chat_completions, model_info := some c.model_info }

/-- The _from_config classmethod. -/
def ReplayChatCompletionClient.from_config
    (cfg : ReplayChatCompletionClientConfig) : ReplayChatCompletionClient :=
  ReplayChatCompletionClient.init cfg.chat_completions cfg.model_info

/-- A completion request: a call to create or a fully consumed call to
create_stream, with its messages argument. -/
inductive Request where
  | createReq (messages : List LLMMessage)
  | streamReq (messages : List LLMMessage)

/-- What a completed request produced: the single result of create, or the
item list of a consumed stream. -/
inductive RequestOut where
  | single (r : CreateResult)
  | streamed (items : List StreamItem)
deriving DecidableEq

/-- Whether an Except value is a success. -/
def exceptOk {ε α : Type} : Except ε α → Bool
  | .ok _ => true
  | .error _ => false

/-- Perform one request on the client. -/
def ReplayChatCompletionClient.doRequest (c : ReplayChatCompletionClient) :
    Request → Except String RequestOut × ReplayChatCompletionClient
  | .createReq messages =>
      let p := c.create messages
      (p.1.map RequestOut.single, p.2)
  | .streamReq messages =>
      let p := c.create_stream messages
      (p.1.map RequestOut.streamed, p.2)

/-- Run a list of requests in order, collecting every outcome, the
actual_usage snapshot taken right after each completed request, and the
final state. -/
def runRequests : ReplayChatCompletionClient → List Request →
    List (Except String RequestOut) × List RequestUsage ×
      ReplayChatCompletionClient
  | c, [] => ([], [], c)
  | c, q :: rest =>
      let p := c.doRequest q
      let k := runRequests p.2 rest
      (p.1 :: k.1,
        (if exceptOk p.1 then [p.2.actual_usage] else []) ++ k.2.1,
        k.2.2)

/-- Element-wise sum of usage records. -/
def sumUsages : List RequestUsage → RequestUsage
  | [] => { prompt_tokens := 0, completion_tokens := 0 }
  | u :: rest =>
      let s := sumUsages rest
      { prompt_tokens := u.prompt_tokens + s.prompt_tokens
        completion_tokens := u.completion_tokens + s.completion_tokens }

deriving instance DecidableEq for Except

/-- Element-wise addition of two usage records (proof vocabulary for the
total-usage bookkeeping). -/
def addUsage (u v : RequestUsage) : RequestUsage :=
  { prompt_tokens := u.prompt_tokens + v.prompt_tokens
    completion_tokens := u.completion_tokens + v.completion_tokens }

/-- The value returned (or the error raised) by create, as a function of
the only pieces of state it depends on: the response list, the cursor, the
cached flag, and the messages argument. -/
def createOut (entries : List ChatCompletion) (idx : Nat) (cached : Bool)
    (messages : List LLMMessage) : Except String CreateResult :=
  match entries[idx]? with
  | none => .error "No more mock responses available"
  | some (.text s) =>
      .ok { finish_reason := "stop", content := .str s
            usage := { prompt_tokens := (tokenize (.msgs messages)).2
                       completion_tokens := (pySplit s).length }
            cached := cached }
  | some (.prebuilt r) => .ok r

/-- The item list yielded (or the error raised) by create_stream, as a
function of the same four inputs. -/
def streamItems (entries : List ChatCompletion) (idx : Nat) (cached : Bool)
    (messages : List LLMMessage) : Except String (List StreamItem) :=
  match entries[idx]? with
  | none => .error "No more mock responses available"
  | some (.text s) =>
      .ok ((spacedTokens (pySplit s)).map StreamItem.chunk ++
        [StreamItem.result
          { finish_reason := "stop", content := .str s
            usage := { prompt_tokens := (tokenize (.msgs messages)).2
                       completion_tokens := (pySplit s).length }
            cached := cached }])
  | some (.prebuilt r) => .ok [StreamItem.result r]

/-- The part of the client state that determines every request outcome: the
response list, the cursor, and the cached flag agree. -/
def StateRel (c1 c2 : ReplayChatCompletionClient) : Prop :=
  c1.chat_completions = c2.chat_completions ∧
  c1.current_index = c2.current_index ∧
  c1.cached_bool_value = c2.cached_bool_value

/-- Joining fragments back with single spaces, the emission rule of the
streaming path read back: used to state the amended reconstruction
property. -/
def joinWithSpaces : List String → String
  | [] => ""
  | [t] => t
  | t :: rest => t ++ " " ++ joinWithSpaces rest

/-- Unfolding create on a raw-text entry at the cursor. -/
lemma create_eq_text (c : ReplayChatCompletionClient) (m : List LLMMessage)
    (s : String) (h : c.chat_completions[c.current_index]? = some (.text s)) :
    c.create m =
      (.ok { finish_reason := "stop", content := .str s
             usage := { prompt_tokens := (tokenize (.msgs m)).2
                        completion_tokens := (pySplit s).length }
             cached := c.cached_bool_value },
       { c with
          cur_usage := { prompt_tokens := (tokenize (.msgs m)).2
                         completion_tokens := (pySplit s).length }
          total_usage := addUsage c.total_usage
            { prompt_tokens := (tokenize (.msgs m)).2
              completion_tokens := (pySplit s).length }
          current_index := c.current_index + 1
          create_calls := c.create_calls ++ [m] }) := by
  obtain ⟨hlt, hget⟩ := List.getElem?_eq_some.mp h
  simp only [ReplayChatCompletionClient.create, dif_pos hlt, hget,
    ReplayChatCompletionClient.update_total_usage, addUsage, tokenize]

/-- Unfolding create on a pre-built entry at the cursor: the canned record
is returned verbatim; only the current-usage counter sees the recomputed
prompt count and the inherited completion count. -/
lemma create_eq_prebuilt (c : ReplayChatCompletionClient)
    (m : List LLMMessage) (r : CreateResult)
    (h : c.chat_completions[c.current_index]? = some (.prebuilt r)) :
    c.create m =
      (.ok r,
       { c with
          cur_usage := { prompt_tokens := (tokenize (.msgs m)).2
                         completion_tokens := r.usage.completion_tokens }
          total_usage := addUsage c.total_usage
            { prompt_tokens := (tokenize (.msgs m)).2
              completion_tokens := r.usage.completion_tokens }
          current_index := c.current_index + 1
          create_calls := c.create_calls ++ [m] }) := by
  obtain ⟨hlt, hget⟩ := List.getElem?_eq_some.mp h
  simp only [ReplayChatCompletionClient.create, dif_pos hlt, hget,
    ReplayChatCompletionClient.update_total_usage, addUsage, tokenize]

/-- Unfolding create past the end of the list: the error is raised before
any state is written. -/
lemma create_eq_exhausted (c : ReplayChatCompletionClient)
    (m : List LLMMessage)
    (h : ¬ c.current_index < c.chat_completions.length) :
    c.create m = (.error "No more mock responses available", c) := by
  simp only [ReplayChatCompletionClient.create, dif_neg h]

/-- Unfolding create_stream on a raw-text entry at the cursor. -/
lemma stream_eq_text (c : ReplayChatCompletionClient) (m : List LLMMessage)
    (s : String) (h : c.chat_completions[c.current_index]? = some (.text s)) :
    c.create_stream m =
      (.ok ((spacedTokens (pySplit s)).map StreamItem.chunk ++
        [StreamItem.result
          { finish_reason := "stop", content := .str s
            usage := { prompt_tokens := (tokenize (.msgs m)).2
                       completion_tokens := (pySplit s).length }
            cached := c.cached_bool_value }]),
       { c with
          cur_usage := { prompt_tokens := (tokenize (.msgs m)).2
                         completion_tokens := (pySplit s).length }
          total_usage := addUsage c.total_usage
            { prompt_tokens := (tokenize (.msgs m)).2
              completion_tokens := (pySplit s).length }
          current_index := c.current_index + 1 }) := by
  obtain ⟨hlt, hget⟩ := List.getElem?_eq_some.mp h
  simp only [ReplayChatCompletionClient.create_stream, dif_pos hlt, hget,
    ReplayChatCompletionClient.update_total_usage, addUsage, tokenize]

/-- Unfolding create_stream on a pre-built entry at the cursor. -/
lemma stream_eq_prebuilt (c : ReplayChatCompletionClient)
    (m : List LLMMessage) (r : CreateResult)
    (h : c.chat_completions[c.current_index]? = some (.prebuilt r)) :
    c.create_stream m =
      (.ok [StreamItem.result r],
       { c with
          cur_usage := { prompt_tokens := (tokenize (.msgs m)).2
                         completion_tokens := r.usage.completion_tokens }
          total_usage := addUsage c.total_usage
            { prompt_tokens := (tokenize (.msgs m)).2
              completion_tokens := r.usage.completion_tokens }
          current_index := c.current_index + 1 }) := by
  obtain ⟨hlt, hget⟩ := List.getElem?_eq_some.mp h
  simp only [ReplayChatCompletionClient.create_stream, dif_pos hlt, hget,
    ReplayChatCompletionClient.update_total_usage, addUsage, tokenize]

/-- Unfolding create_stream past the end of the list. -/
lemma stream_eq_exhausted (c : ReplayChatCompletionClient)
    (m : List LLMMessage)
    (h : ¬ c.current_index < c.chat_completions.length) :
    c.create_stream m = (.error "No more mock responses available", c) := by
  simp only [ReplayChatCompletionClient.create_stream, dif_neg h]

lemma addUsage_zero (u : RequestUsage) :
    addUsage u { prompt_tokens := 0, completion_tokens := 0 } = u := by
  cases u; simp [addUsage]

lemma zero_addUsage (u : RequestUsage) :
    addUsage { prompt_tokens := 0, completion_tokens := 0 } u = u := by
  cases u; simp [addUsage]

lemma addUsage_assoc (u v w : RequestUsage) :
    addUsage (addUsage u v) w = addUsage u (addUsage v w) := by
  simp [addUsage, Nat.add_assoc]

/-- The result of create is a function of the response list, the cursor,
the cached flag and the messages. -/
lemma create_fst_eq (c : ReplayChatCompletionClient) (m : List LLMMessage) :
    (c.create m).1 =
      createOut c.chat_completions c.current_index c.cached_bool_value m := by
  by_cases hlt : c.current_index < c.chat_completions.length
  · have hg := List.getElem?_eq_getElem (l := c.chat_completions) hlt
    cases hE : c.chat_completions[c.current_index] with
    | text s =>
        rw [hE] at hg
        rw [create_eq_text c m s hg]
        simp [createOut, hg]
    | prebuilt r =>
        rw [hE] at hg
        rw [create_eq_prebuilt c m r hg]
        simp [createOut, hg]
  · rw [create_eq_exhausted c m hlt]
    have hg : c.chat_completions[c.current_index]? = none :=
      List.getElem?_eq_none (by omega)
    simp [createOut, hg]

/-- The item list of create_stream is a function of the same four inputs. -/
lemma stream_fst_eq (c : ReplayChatCompletionClient) (m : List LLMMessage) :
    (c.create_stream m).1 =
      streamItems c.chat_completions c.current_index c.cached_bool_value m := by
  by_cases hlt : c.current_index < c.chat_completions.length
  · have hg := List.getElem?_eq_getElem (l := c.chat_completions) hlt
    cases hE : c.chat_completions[c.current_index] with
    | text s =>
        rw [hE] at hg
        rw [stream_eq_text c m s hg]
        simp [streamItems, hg]
    | prebuilt r =>
        rw [hE] at hg
        rw [stream_eq_prebuilt c m r hg]
        simp [streamItems, hg]
  · rw [stream_eq_exhausted c m hlt]
    have hg : c.chat_completions[c.current_index]? = none :=
      List.getElem?_eq_none (by omega)
    simp [streamItems, hg]

/-- How the fields that drive request outcomes evolve under create. -/
lemma create_snd_fields (c : ReplayChatCompletionClient)
    (m : List LLMMessage) :
    (c.create m).2.chat_completions = c.chat_completions ∧
    (c.create m).2.cached_bool_value = c.cached_bool_value ∧
    (c.create m).2.current_index =
      (if c.current_index < c.chat_completions.length
        then c.current_index + 1 else c.current_index) := by
  by_cases hlt : c.current_index < c.chat_completions.length
  · have hg := List.getElem?_eq_getElem (l := c.chat_completions) hlt
    cases hE : c.chat_completions[c.current_index] with
    | text s =>
        rw [hE] at hg
        rw [create_eq_text c m s hg]
        simp [hlt]
    | prebuilt r =>
        rw [hE] at hg
        rw [create_eq_prebuilt c m r hg]
        simp [hlt]
  · rw [create_eq_exhausted c m hlt]
    simp [hlt]

/-- How the same fields evolve under create_stream. -/
lemma stream_snd_fields (c : ReplayChatCompletionClient)
    (m : List LLMMessage) :
    (c.create_stream m).2.chat_completions = c.chat_completions ∧
    (c.create_stream m).2.cached_bool_value = c.cached_bool_value ∧
    (c.create_stream m).2.current_index =
      (if c.current_index < c.chat_completions.length
        then c.current_index + 1 else c.current_index) := by
  by_cases hlt : c.current_index < c.chat_completions.length
  · have hg := List.getElem?_eq_getElem (l := c.chat_completions) hlt
    cases hE : c.chat_completions[c.current_index] with
    | text s =>
        rw [hE] at hg
        rw [stream_eq_text c m s hg]
        simp [hlt]
    | prebuilt r =>
        rw [hE] at hg
        rw [stream_eq_prebuilt c m r hg]
        simp [hlt]
  · rw [stream_eq_exhausted c m hlt]
    simp [hlt]

/-- Below the end of the list, create succeeds. -/
lemma create_ok_of_lt (c : ReplayChatCompletionClient) (m : List LLMMessage)
    (hlt : c.current_index < c.chat_completions.length) :
    exceptOk (c.create m).1 = true := by
  have hg := List.getElem?_eq_getElem (l := c.chat_completions) hlt
  cases hE : c.chat_completions[c.current_index] with
  | text s =>
      rw [hE] at hg
      rw [create_eq_text c m s hg]
      rfl
  | prebuilt r =>
      rw [hE] at hg
      rw [create_eq_prebuilt c m r hg]
      rfl

/-- Below the end of the list, create_stream succeeds. -/
lemma stream_ok_of_lt (c : ReplayChatCompletionClient) (m : List LLMMessage)
    (hlt : c.current_index < c.chat_completions.length) :
    exceptOk (c.create_stream m).1 = true := by
  have hg := List.getElem?_eq_getElem (l := c.chat_completions) hlt
  cases hE : c.chat_completions[c.current_index] with
  | text s =>
      rw [hE] at hg
      rw [stream_eq_text c m s hg]
      rfl
  | prebuilt r =>
      rw [hE] at hg
      rw [stream_eq_prebuilt c m r hg]
      rfl

/-- On success, the total usage after create is the total before plus the
new current usage. -/
lemma create_total_of_lt (c : ReplayChatCompletionClient)
    (m : List LLMMessage)
    (hlt : c.current_index < c.chat_completions.length) :
    (c.create m).2.total_usage =
      addUsage c.total_usage (c.create m).2.cur_usage := by
  have hg := List.getElem?_eq_getElem (l := c.chat_completions) hlt
  cases hE : c.chat_completions[c.current_index] with
  | text s =>
      rw [hE] at hg
      rw [create_eq_text c m s hg]
  | prebuilt r =>
      rw [hE] at hg
      rw [create_eq_prebuilt c m r hg]

/-- On success, the total usage after a consumed create_stream is the total
before plus the new current usage. -/
lemma stream_total_of_lt (c : ReplayChatCompletionClient)
    (m : List LLMMessage)
    (hlt : c.current_index < c.chat_completions.length) :
    (c.create_stream m).2.total_usage =
      addUsage c.total_usage (c.create_stream m).2.cur_usage := by
  have hg := List.getElem?_eq_getElem (l := c.chat_completions) hlt
  cases hE : c.chat_completions[c.current_index] with
  | text s =>
      rw [hE] at hg
      rw [stream_eq_text c m s hg]
  | prebuilt r =>
      rw [hE] at hg
      rw [stream_eq_prebuilt c m r hg]

/-- The call log after create: one record appended on success, untouched on
the exhausted error. -/
lemma create_snd_calls (c : ReplayChatCompletionClient)
    (m : List LLMMessage) :
    (c.create m).2.create_calls =
      (if c.current_index < c.chat_completions.length
        then c.create_calls ++ [m] else c.create_calls) := by
  by_cases hlt : c.current_index < c.chat_completions.length
  · have hg := List.getElem?_eq_getElem (l := c.chat_completions) hlt
    cases hE : c.chat_completions[c.current_index] with
    | text s =>
        rw [hE] at hg
        rw [create_eq_text c m s hg]
        simp [hlt]
    | prebuilt r =>
        rw [hE] at hg
        rw [create_eq_prebuilt c m r hg]
        simp [hlt]
  · rw [create_eq_exhausted c m hlt]
    simp [hlt]

/-- The call log is never touched by create_stream. -/
lemma stream_snd_calls (c : ReplayChatCompletionClient)
    (m : List LLMMessage) :
    (c.create_stream m).2.create_calls = c.create_calls := by
  by_cases hlt : c.current_index < c.chat_completions.length
  · have hg := List.getElem?_eq_getElem (l := c.chat_completions) hlt
    cases hE : c.chat_completions[c.current_index] with
    | text s =>
        rw [hE] at hg
        rw [stream_eq_text c m s hg]
    | prebuilt r =>
        rw [hE] at hg
        rw [stream_eq_prebuilt c m r hg]
  · rw [stream_eq_exhausted c m hlt]

lemma exceptOk_map {ε α β : Type} (f : α → β) (x : Except ε α) :
    exceptOk (x.map f) = exceptOk x := by
  cases x <;> rfl

/-- How the outcome-driving fields evolve under either kind of request. -/
lemma doRequest_snd_fields (c : ReplayChatCompletionClient) (q : Request) :
    (c.doRequest q).2.chat_completions = c.chat_completions ∧
    (c.doRequest q).2.cached_bool_value = c.cached_bool_value ∧
    (c.doRequest q).2.current_index =
      (if c.current_index < c.chat_completions.length
        then c.current_index + 1 else c.current_index) := by
  cases q with
  | createReq m =>
      simpa [ReplayChatCompletionClient.doRequest] using create_snd_fields c m
  | streamReq m =>
      simpa [ReplayChatCompletionClient.doRequest] using stream_snd_fields c m

/-- Below the end of the list, either kind of request succeeds. -/
lemma doRequest_ok_of_lt (c : ReplayChatCompletionClient) (q : Request)
    (hlt : c.current_index < c.chat_completions.length) :
    exceptOk (c.doRequest q).1 = true := by
  cases q with
  | createReq m =>
      simpa [ReplayChatCompletionClient.doRequest, exceptOk_map] using
        create_ok_of_lt c m hlt
  | streamReq m =>
      simpa [ReplayChatCompletionClient.doRequest, exceptOk_map] using
        stream_ok_of_lt c m hlt

/-- At or past the end of the list, either kind of request raises the
exhausted error and keeps the state untouched. -/
lemma doRequest_eq_exhausted (c : ReplayChatCompletionClient) (q : Request)
    (hlt : ¬ c.current_index < c.chat_completions.length) :
    c.doRequest q = (.error "No more mock responses available", c) := by
  cases q with
  | createReq m =>
      simp [ReplayChatCompletionClient.doRequest, create_eq_exhausted c m hlt,
        Except.map]
  | streamReq m =>
      simp [ReplayChatCompletionClient.doRequest, stream_eq_exhausted c m hlt,
        Except.map]

lemma lt_of_doRequest_ok (c : ReplayChatCompletionClient) (q : Request)
    (h : exceptOk (c.doRequest q).1 = true) :
    c.current_index < c.chat_completions.length := by
  by_contra hlt
  rw [doRequest_eq_exhausted c q hlt] at h
  simp [exceptOk] at h

/-- On success, the total usage after a request is the total before plus
the new current usage. -/
lemma doRequest_total_of_lt (c : ReplayChatCompletionClient) (q : Request)
    (hlt : c.current_index < c.chat_completions.length) :
    (c.doRequest q).2.total_usage =
      addUsage c.total_usage (c.doRequest q).2.cur_usage := by
  cases q with
  | createReq m =>
      simpa [ReplayChatCompletionClient.doRequest] using
        create_total_of_lt c m hlt
  | streamReq m =>
      simpa [ReplayChatCompletionClient.doRequest] using
        stream_total_of_lt c m hlt

/-- Two clients agreeing on list, cursor and cached flag produce the same
outcome for any request and keep agreeing afterwards. -/
lemma doRequest_congr (c1 c2 : ReplayChatCompletionClient) (q : Request)
    (h : StateRel c1 c2) :
    (c1.doRequest q).1 = (c2.doRequest q).1 ∧
    StateRel (c1.doRequest q).2 (c2.doRequest q).2 := by
  obtain ⟨h1, h2, h3⟩ := h
  constructor
  · cases q with
    | createReq m =>
        simp [ReplayChatCompletionClient.doRequest, create_fst_eq, h1, h2, h3]
    | streamReq m =>
        simp [ReplayChatCompletionClient.doRequest, stream_fst_eq, h1, h2, h3]
  · cases q with
    | createReq m =>
        obtain ⟨f1, f2, f3⟩ := create_snd_fields c1 m
        obtain ⟨g1, g2, g3⟩ := create_snd_fields c2 m
        exact ⟨by simp [ReplayChatCompletionClient.doRequest, f1, g1, h1],
          by simp [ReplayChatCompletionClient.doRequest, f3, g3, h1, h2],
          by simp [ReplayChatCompletionClient.doRequest, f2, g2, h3]⟩
    | streamReq m =>
        obtain ⟨f1, f2, f3⟩ := stream_snd_fields c1 m
        obtain ⟨g1, g2, g3⟩ := stream_snd_fields c2 m
        exact ⟨by simp [ReplayChatCompletionClient.doRequest, f1, g1, h1],
          by simp [ReplayChatCompletionClient.doRequest, f3, g3, h1, h2],
          by simp [ReplayChatCompletionClient.doRequest, f2, g2, h3]⟩

/-- Request-by-request congruence extends to whole runs: the outcome lists
agree and the final states still agree on the driving fields. -/
lemma runRequests_congr (reqs : List Request) :
    ∀ c1 c2 : ReplayChatCompletionClient, StateRel c1 c2 →
      (runRequests c1 reqs).1 = (runRequests c2 reqs).1 ∧
      StateRel (runRequests c1 reqs).2.2 (runRequests c2 reqs).2.2 := by
  induction reqs with
  | nil => exact fun c1 c2 h => ⟨rfl, h⟩
  | cons q rest ih =>
      intro c1 c2 h
      obtain ⟨ho, hs⟩ := doRequest_congr c1 c2 q h
      obtain ⟨io, is⟩ := ih _ _ hs
      exact ⟨by simp [runRequests, ho, io], by simpa [runRequests] using is⟩

/-- While enough entries remain, a run of requests succeeds throughout,
advances the cursor once per request, and leaves list and cached flag
alone. -/
lemma runRequests_ok (reqs : List Request) :
    ∀ c : ReplayChatCompletionClient,
      c.current_index + reqs.length ≤ c.chat_completions.length →
      (runRequests c reqs).1.all exceptOk = true ∧
      (runRequests c reqs).2.2.current_index =
        c.current_index + reqs.length ∧
      (runRequests c reqs).2.2.chat_completions = c.chat_completions ∧
      (runRequests c reqs).2.2.cached_bool_value = c.cached_bool_value := by
  induction reqs with
  | nil => intro c h; simp [runRequests]
  | cons q rest ih =>
      intro c h
      have hlt : c.current_index < c.chat_completions.length := by
        simp at h; omega
      have hok := doRequest_ok_of_lt c q hlt
      obtain ⟨f1, f2, f3⟩ := doRequest_snd_fields c q
      have hidx : (c.doRequest q).2.current_index = c.current_index + 1 := by
        rw [f3, if_pos hlt]
      have hrec := ih (c.doRequest q).2 (by rw [hidx, f1]; simp at h ⊢; omega)
      obtain ⟨r1, r2, r3, r4⟩ := hrec
      refine ⟨?_, ?_, ?_, ?_⟩
      · simp [runRequests, hok, r1]
      · simp [runRequests]; rw [r2, hidx]; omega
      · simp [runRequests]; rw [r3, f1]
      · simp [runRequests]; rw [r4, f2]

/-- The total usage after any run is the total before plus the element-wise
sum of the usage snapshots taken after each completed request. -/
lemma runRequests_total (reqs : List Request) :
    ∀ c : ReplayChatCompletionClient,
      (runRequests c reqs).2.2.total_usage =
        addUsage c.total_usage (sumUsages (runRequests c reqs).2.1) := by
  induction reqs with
  | nil => intro c; simp [runRequests, sumUsages, addUsage_zero]
  | cons q rest ih =>
      intro c
      by_cases hok : exceptOk (c.doRequest q).1 = true
      · have hlt := lt_of_doRequest_ok c q hok
        have htot := doRequest_total_of_lt c q hlt
        have := ih (c.doRequest q).2
        simp [runRequests, hok, sumUsages] at this ⊢
        rw [this, htot]
        show addUsage (addUsage c.total_usage (c.doRequest q).2.cur_usage) _ =
          addUsage c.total_usage
            (addUsage (c.doRequest q).2.actual_usage _)
        rw [addUsage_assoc]
        rfl
      · have hlt : ¬ c.current_index < c.chat_completions.length := by
          intro hlt
          exact hok (doRequest_ok_of_lt c q hlt)
        have hstep := doRequest_eq_exhausted c q hlt
        have := ih (c.doRequest q).2
        simp [runRequests, hok] at this ⊢
        rw [this, hstep]

/-- The count computed by the sequence branch of _tokenize does not depend
on the accumulator already gathered. -/
lemma tokenize_foldl_snd (l : List LLMMessage) :
    ∀ acc : List String × Nat,
      (l.foldl tokenizeStep acc).2 =
        acc.2 + (l.foldl tokenizeStep ([], 0)).2 := by
  induction l with
  | nil => intro acc; simp
  | cons m rest ih =>
      intro acc
      rw [List.foldl_cons, List.foldl_cons, ih (tokenizeStep acc m),
        ih (tokenizeStep ([], 0) m)]
      cases hm : m.content with
      | str s => simp [tokenizeStep, hm]; omega
      | other => simp [tokenizeStep, hm]

/-- Token counting over a sequence of messages decomposes message by
message. -/
lemma tokenize_msgs_cons (m : LLMMessage) (rest : List LLMMessage) :
    (tokenize (.msgs (m :: rest))).2 =
      (tokenize (.msg m)).2 + (tokenize (.msgs rest)).2 := by
  show (List.foldl tokenizeStep (tokenizeStep ([], 0) m) rest).2 = _
  rw [tokenize_foldl_snd rest (tokenizeStep ([], 0) m)]
  cases hm : m.content <;> simp [tokenizeStep, tokenize, hm]

/-- All but the last fragment carry a single trailing space; the last is
bare. -/
lemma spacedTokens_eq (toks : List String) :
    spacedTokens toks =
      toks.dropLast.map (fun t => t ++ " ") ++ toks.getLast?.toList := by
  induction toks with
  | nil => rfl
  | cons t rest ih =>
      cases rest with
      | nil => rfl
      | cons r rs =>
          rw [show spacedTokens (t :: r :: rs) =
            (t ++ " ") :: spacedTokens (r :: rs) from rfl, ih]
          simp

lemma join_cons (a : String) (l : List String) :
    String.join (a :: l) = a ++ String.join l := by
  simp [String.join_eq]
  rfl

/-- Concatenating the yielded fragments gives the tokens re-joined with
single spaces. -/
lemma join_spacedTokens (toks : List String) :
    String.join (spacedTokens toks) = joinWithSpaces toks := by
  induction toks with
  | nil => rfl
  | cons t rest ih =>
      cases rest with
      | nil =>
          simp [spacedTokens, joinWithSpaces, join_cons]
          exact String.append_empty t
      | cons r rs =>
          rw [show spacedTokens (t :: r :: rs) =
            (t ++ " ") :: spacedTokens (r :: rs) from rfl, join_cons, ih]
          show (t ++ " ") ++ joinWithSpaces (r :: rs) = _
          rw [show joinWithSpaces (t :: r :: rs) =
            t ++ " " ++ joinWithSpaces (r :: rs) from rfl]

/-- C1 counterexample: with a pre-built entry whose canned usage is
{prompt 99, completion 7}, a create call whose messages tokenize to 3
prompt tokens returns the canned record verbatim, so the returned usage
still carries prompt_tokens 99, not the recomputed 3. -/
theorem c1_counterexample :
    ((ReplayChatCompletionClient.init
        [.prebuilt { finish_reason := "stop", content := .str "x"
                     usage := { prompt_tokens := 99, completion_tokens := 7 }
                     cached := true }] none).create
        [{ content := .str "a b c" }]).1 =
      .ok { finish_reason := "stop", content := .str "x"
            usage := { prompt_tokens := 99, completion_tokens := 7 }
            cached := true } ∧
    (tokenize (.msgs [{ content := .str "a b c" }])).2 = 3 ∧
    Except.map (fun r => r.usage.prompt_tokens)
        ((ReplayChatCompletionClient.init
          [.prebuilt { finish_reason := "stop", content := .str "x"
                       usage := { prompt_tokens := 99, completion_tokens := 7 }
                       cached := true }] none).create
          [{ content := .str "a b c" }]).1 ≠ .ok 3 :=
  ⟨by decide, by decide, by decide⟩

/-- C1 (amended): create on a pre-built entry returns the canned record
verbatim (hence its completion-token count, and also its canned
prompt-token count); the recomputed prompt count and the inherited
completion count instead land in the current-usage counter read by
actual_usage. -/
theorem c1_prebuilt_usage (c : ReplayChatCompletionClient)
    (m : List LLMMessage) (r : CreateResult)
    (h : c.chat_completions[c.current_index]? = some (.prebuilt r)) :
    (c.create m).1 = .ok r ∧
    (c.create m).2.actual_usage =
      { prompt_tokens := (tokenize (.msgs m)).2
        completion_tokens := r.usage.completion_tokens } := by
  rw [create_eq_prebuilt c m r h]
  exact ⟨rfl, rfl⟩

/-- C1 witness: the amended statement at the concrete scenario of the
claim (canned completion count 7, messages of 3 tokens). -/
theorem c1_prebuilt_usage_witness :
    ((ReplayChatCompletionClient.init
        [.prebuilt { finish_reason := "stop", content := .str "x"
                     usage := { prompt_tokens := 99, completion_tokens := 7 }
                     cached := true }] none).create
        [{ content := .str "a b c" }]).1 =
      .ok { finish_reason := "stop", content := .str "x"
            usage := { prompt_tokens := 99, completion_tokens := 7 }
            cached := true } ∧
    ((ReplayChatCompletionClient.init
        [.prebuilt { finish_reason := "stop", content := .str "x"
                     usage := { prompt_tokens := 99, completion_tokens := 7 }
                     cached := true }] none).create
        [{ content := .str "a b c" }]).2.actual_usage =
      { prompt_tokens := 3, completion_tokens := 7 } :=
  c1_prebuilt_usage _ _ _ rfl

/-- C2 counterexample: for the raw-text entry with a double space, the
stream yields the normalized fragments, whose concatenation differs from
the original text, while the final record still carries the original
text. -/
theorem c2_counterexample :
    ((ReplayChatCompletionClient.init [.text "a  b"] none).create_stream
        []).1 =
      .ok [.chunk "a ", .chunk "b",
        .result { finish_reason := "stop", content := .str "a  b"
                  usage := { prompt_tokens := 0, completion_tokens := 2 }
                  cached := true }] ∧
    String.join ["a ", "b"] ≠ "a  b" :=
  ⟨by decide, by decide⟩

/-- C2 (amended): streaming a raw-text entry yields the whitespace-split
fragments, all but the last with a single trailing space and the last
bare, then exactly one final result whose content is the original text;
concatenating the non-final fragments reproduces the fragments re-joined
with single spaces (the whitespace-normalized text), which equals the
original text exactly only when the original already has that form. -/
theorem c2_stream_text (c : ReplayChatCompletionClient)
    (m : List LLMMessage) (s : String)
    (h : c.chat_completions[c.current_index]? = some (.text s)) :
    (c.create_stream m).1 =
      .ok ((spacedTokens (pySplit s)).map StreamItem.chunk ++
        [StreamItem.result
          { finish_reason := "stop", content := .str s
            usage := { prompt_tokens := (tokenize (.msgs m)).2
                       completion_tokens := (pySplit s).length }
            cached := c.cached_bool_value }]) ∧
    spacedTokens (pySplit s) =
      (pySplit s).dropLast.map (fun t => t ++ " ") ++
        (pySplit s).getLast?.toList ∧
    String.join (spacedTokens (pySplit s)) = joinWithSpaces (pySplit s) :=
  ⟨by rw [stream_eq_text c m s h], spacedTokens_eq _, join_spacedTokens _⟩

/-- C2 witness: the amended statement at a concrete already-normalized
text. -/
theorem c2_stream_text_witness :
    ((ReplayChatCompletionClient.init [.text "Hi you"] none).create_stream
        []).1 =
      .ok [.chunk "Hi ", .chunk "you",
        .result { finish_reason := "stop", content := .str "Hi you"
                  usage := { prompt_tokens := 0, completion_tokens := 2 }
                  cached := true }] ∧
    spacedTokens (pySplit "Hi you") =
      (pySplit "Hi you").dropLast.map (fun t => t ++ " ") ++
        (pySplit "Hi you").getLast?.toList ∧
    String.join (spacedTokens (pySplit "Hi you")) =
      joinWithSpaces (pySplit "Hi you") := by
  exact c2_stream_text (ReplayChatCompletionClient.init [.text "Hi you"] none)
    [] "Hi you" rfl

/-- C3: starting fresh, as many requests as there are entries all succeed
and drive the cursor to N; one more request of either kind fails with the
exhausted error leaving the state untouched; after reset the same requests
all produce the same outcomes again. -/
theorem c3_exhaustion_and_reset (entries : List ChatCompletion)
    (mi : Option ModelInfo) (reqs : List Request) (q : Request)
    (h : reqs.length = entries.length) :
    (runRequests (ReplayChatCompletionClient.init entries mi) reqs).1.all
      exceptOk = true ∧
    (runRequests (ReplayChatCompletionClient.init entries mi)
      reqs).2.2.current_index = entries.length ∧
    ((runRequests (ReplayChatCompletionClient.init entries mi)
        reqs).2.2.doRequest q).1 =
      .error "No more mock responses available" ∧
    ((runRequests (ReplayChatCompletionClient.init entries mi)
        reqs).2.2.doRequest q).2 =
      (runRequests (ReplayChatCompletionClient.init entries mi) reqs).2.2 ∧
    (runRequests
        ((runRequests (ReplayChatCompletionClient.init entries mi)
          reqs).2.2.reset) reqs).1 =
      (runRequests (ReplayChatCompletionClient.init entries mi) reqs).1 := by
  have h0 : (ReplayChatCompletionClient.init entries mi).current_index +
      reqs.length ≤
      (ReplayChatCompletionClient.init entries mi).chat_completions.length := by
    simp [ReplayChatCompletionClient.init]
    omega
  obtain ⟨hall, hidx, hchat, hcached⟩ :=
    runRequests_ok reqs (ReplayChatCompletionClient.init entries mi) h0
  have hidxN : (runRequests (ReplayChatCompletionClient.init entries mi)
      reqs).2.2.current_index = entries.length := by
    rw [hidx]
    simp [ReplayChatCompletionClient.init, h]
  have hnlt : ¬ (runRequests (ReplayChatCompletionClient.init entries mi)
        reqs).2.2.current_index <
      (runRequests (ReplayChatCompletionClient.init entries mi)
        reqs).2.2.chat_completions.length := by
    rw [hidxN, hchat]
    simp [ReplayChatCompletionClient.init]
  have hexh := doRequest_eq_exhausted _ q hnlt
  have hrel : StateRel
      ((runRequests (ReplayChatCompletionClient.init entries mi)
        reqs).2.2.reset)
      (ReplayChatCompletionClient.init entries mi) := by
    refine ⟨?_, rfl, ?_⟩
    · simpa [ReplayChatCompletionClient.reset,
        ReplayChatCompletionClient.init] using hchat
    · simpa [ReplayChatCompletionClient.reset,
        ReplayChatCompletionClient.init] using hcached
  obtain ⟨houts, -⟩ := runRequests_congr reqs _ _ hrel
  exact ⟨hall, hidxN, by rw [hexh], by rw [hexh], houts⟩

/-- C3 witness: one text entry, one create request, then the failing extra
request, then the reset replay. -/
theorem c3_exhaustion_and_reset_witness :
    (runRequests (ReplayChatCompletionClient.init [.text "Hi"] none)
      [.createReq []]).1.all exceptOk = true ∧
    (runRequests (ReplayChatCompletionClient.init [.text "Hi"] none)
      [.createReq []]).2.2.current_index = [ChatCompletion.text "Hi"].length ∧
    ((runRequests (ReplayChatCompletionClient.init [.text "Hi"] none)
        [.createReq []]).2.2.doRequest (.createReq [])).1 =
      .error "No more mock responses available" ∧
    ((runRequests (ReplayChatCompletionClient.init [.text "Hi"] none)
        [.createReq []]).2.2.doRequest (.createReq [])).2 =
      (runRequests (ReplayChatCompletionClient.init [.text "Hi"] none)
        [.createReq []]).2.2 ∧
    (runRequests
        ((runRequests (ReplayChatCompletionClient.init [.text "Hi"] none)
          [.createReq []]).2.2.reset) [.createReq []]).1 =
      (runRequests (ReplayChatCompletionClient.init [.text "Hi"] none)
        [.createReq []]).1 := by
  exact c3_exhaustion_and_reset [.text "Hi"] none [.createReq []]
    (.createReq []) rfl

/-- C4: starting with zeroed totals (as after construction or reset), the
total usage after any request sequence is the element-wise sum of the
actual_usage snapshots taken right after each completed request. -/
theorem c4_total_usage_additivity (c : ReplayChatCompletionClient)
    (reqs : List Request)
    (h : c.total_usage = { prompt_tokens := 0, completion_tokens := 0 }) :
    (runRequests c reqs).2.2.total_usage =
      sumUsages (runRequests c reqs).2.1 := by
  rw [runRequests_total reqs c, h, zero_addUsage]

/-- C4 witness: a create call followed by a consumed stream call on two
text entries. -/
theorem c4_total_usage_additivity_witness :
    (runRequests
        (ReplayChatCompletionClient.init [.text "Hello there", .text "Bye"]
          none) [.createReq [], .streamReq []]).2.2.total_usage =
      sumUsages (runRequests
        (ReplayChatCompletionClient.init [.text "Hello there", .text "Bye"]
          none) [.createReq [], .streamReq []]).2.1 := by
  exact c4_total_usage_additivity
    (ReplayChatCompletionClient.init [.text "Hello there", .text "Bye"] none)
    [.createReq [], .streamReq []] rfl

/-- C5: exporting the configuration and rebuilding from it reproduces the
response list and the capability descriptor exactly, with the cursor at 0,
both usage counters zeroed and an empty call log, whatever the state of
the original client. -/
theorem c5_config_roundtrip (c : ReplayChatCompletionClient) :
    (ReplayChatCompletionClient.from_config c.to_config).chat_completions =
      c.chat_completions ∧
    (ReplayChatCompletionClient.from_config c.to_config).model_info =
      c.model_info ∧
    (ReplayChatCompletionClient.from_config c.to_config).current_index = 0 ∧
    (ReplayChatCompletionClient.from_config c.to_config).cur_usage =
      { prompt_tokens := 0, completion_tokens := 0 } ∧
    (ReplayChatCompletionClient.from_config c.to_config).total_usage =
      { prompt_tokens := 0, completion_tokens := 0 } ∧
    (ReplayChatCompletionClient.from_config c.to_config).create_calls = [] :=
  ⟨rfl, rfl, rfl, rfl, rfl, rfl⟩

/-- C6: create on a raw-text entry at the cursor builds the stop-result
with the entry text as content, the whitespace-split count of that text as
completion tokens, the tokenization count of the call messages as prompt
tokens, and the current cached flag; in particular, on the two-entry list
of the scenario the first call returns Hello there with 2 completion
tokens and the second returns Bye with 1. -/
theorem c6_text_create (c : ReplayChatCompletionClient)
    (m : List LLMMessage) (s : String)
    (h : c.chat_completions[c.current_index]? = some (.text s)) :
    (c.create m).1 =
      .ok { finish_reason := "stop", content := .str s
            usage := { prompt_tokens := (tokenize (.msgs m)).2
                       completion_tokens := (pySplit s).length }
            cached := c.cached_bool_value } ∧
    ((ReplayChatCompletionClient.init
        [.text "Hello there", .text "Bye"] none).create []).1 =
      .ok { finish_reason := "stop", content := .str "Hello there"
            usage := { prompt_tokens := 0, completion_tokens := 2 }
            cached := true } ∧
    ((((ReplayChatCompletionClient.init
        [.text "Hello there", .text "Bye"] none).create []).2).create
      []).1 =
      .ok { finish_reason := "stop", content := .str "Bye"
            usage := { prompt_tokens := 0, completion_tokens := 1 }
            cached := true } :=
  ⟨by rw [create_eq_text c m s h], by decide, by decide⟩

/-- C6 witness: the general statement at a concrete client and a one-token
message. -/
theorem c6_text_create_witness :
    ((ReplayChatCompletionClient.init [.text "Hi you"] none).create
        [{ content := .str "q" }]).1 =
      .ok { finish_reason := "stop", content := .str "Hi you"
            usage := { prompt_tokens := 1, completion_tokens := 2 }
            cached := true } := by
  exact (c6_text_create (ReplayChatCompletionClient.init [.text "Hi you"] none)
    [{ content := .str "q" }] "Hi you" rfl).1

/-- C7: reset zeroes both usage counters and rewinds the cursor to 0 while
leaving the call log and the response list untouched; total_usage then
reads zero and a subsequent create serves the entry at index 0 again. -/
theorem c7_reset (c : ReplayChatCompletionClient) (m : List LLMMessage)
    (h : 0 < c.chat_completions.length) :
    c.reset.cur_usage = { prompt_tokens := 0, completion_tokens := 0 } ∧
    c.reset.total_usage = { prompt_tokens := 0, completion_tokens := 0 } ∧
    c.reset.current_index = 0 ∧
    c.reset.create_calls = c.create_calls ∧
    c.reset.chat_completions = c.chat_completions ∧
    exceptOk (c.reset.create m).1 = true ∧
    (c.reset.create m).1 =
      createOut c.chat_completions 0 c.cached_bool_value m := by
  refine ⟨rfl, rfl, rfl, rfl, rfl, ?_, ?_⟩
  · exact create_ok_of_lt c.reset m h
  · rw [create_fst_eq]
    rfl

/-- C7 witness: reset after one consumed entry, then a fresh create. -/
theorem c7_reset_witness :
    (((ReplayChatCompletionClient.init [.text "Hi"] none).create
        []).2).reset.cur_usage =
      { prompt_tokens := 0, completion_tokens := 0 } ∧
    (((ReplayChatCompletionClient.init [.text "Hi"] none).create
        []).2).reset.total_usage =
      { prompt_tokens := 0, completion_tokens := 0 } ∧
    (((ReplayChatCompletionClient.init [.text "Hi"] none).create
        []).2).reset.current_index = 0 ∧
    (((ReplayChatCompletionClient.init [.text "Hi"] none).create
        []).2).reset.create_calls =
      (((ReplayChatCompletionClient.init [.text "Hi"] none).create
        []).2).create_calls ∧
    (((ReplayChatCompletionClient.init [.text "Hi"] none).create
        []).2).reset.chat_completions =
      (((ReplayChatCompletionClient.init [.text "Hi"] none).create
        []).2).chat_completions ∧
    exceptOk ((((ReplayChatCompletionClient.init [.text "Hi"] none).create
        []).2).reset.create []).1 = true ∧
    ((((ReplayChatCompletionClient.init [.text "Hi"] none).create
        []).2).reset.create []).1 =
      createOut (((ReplayChatCompletionClient.init [.text "Hi"] none).create
        []).2).chat_completions 0
        (((ReplayChatCompletionClient.init [.text "Hi"] none).create
          []).2).cached_bool_value [] := by
  exact c7_reset (((ReplayChatCompletionClient.init [.text "Hi"] none).create
    []).2) [] (by decide)

/-- C8: a create call appends exactly one record of its arguments to the
call log when it succeeds and leaves the log untouched when it fails; a
consumed create_stream call never touches the log. -/
theorem c8_call_log (c : ReplayChatCompletionClient) (m : List LLMMessage) :
    (c.create m).2.create_calls =
      (if exceptOk (c.create m).1 = true then c.create_calls ++ [m]
        else c.create_calls) ∧
    (c.create_stream m).2.create_calls = c.create_calls := by
  refine ⟨?_, stream_snd_calls c m⟩
  by_cases hlt : c.current_index < c.chat_completions.length
  · rw [create_snd_calls, if_pos hlt, if_pos (create_ok_of_lt c m hlt)]
  · rw [create_snd_calls, if_neg hlt, create_eq_exhausted c m hlt]
    simp [exceptOk]

/-- C9: tokenizing never fails; over a sequence, counts accumulate message
by message, a non-string-content message contributing exactly zero, and
dropping such a message does not change the count. -/
theorem c9_tokenize_nonstring :
    (∀ l : List LLMMessage,
      (tokenize (.msgs l)).2 =
        (l.map (fun m => (tokenize (.msg m)).2)).sum) ∧
    tokenize (.msg { content := .other }) = ([], 0) ∧
    (∀ l1 l2 : List LLMMessage,
      (tokenize (.msgs (l1 ++ { content := .other } :: l2))).2 =
        (tokenize (.msgs (l1 ++ l2))).2) := by
  have hsum : ∀ l : List LLMMessage,
      (tokenize (.msgs l)).2 =
        (l.map (fun m => (tokenize (.msg m)).2)).sum := by
    intro l
    induction l with
    | nil => rfl
    | cons m rest ih => rw [tokenize_msgs_cons, ih]; simp
  refine ⟨hsum, rfl, ?_⟩
  intro l1 l2
  rw [hsum, hsum]
  simp [tokenize]

/-- C10: when the cursor sits at the end of the list, both create and
create_stream fail with the exhausted error and return the client state
completely unchanged: cursor, both usage counters, cached flag and call
log included. -/
theorem c10_exhausted_frame (c : ReplayChatCompletionClient)
    (m : List LLMMessage)
    (h : c.current_index = c.chat_completions.length) :
    c.create m = (.error "No more mock responses available", c) ∧
    c.create_stream m = (.error "No more mock responses available", c) := by
  have hlt : ¬ c.current_index < c.chat_completions.length := by omega
  exact ⟨create_eq_exhausted c m hlt, stream_eq_exhausted c m hlt⟩

/-- C10 witness: the client that has consumed its single entry. -/
theorem c10_exhausted_frame_witness :
    (((ReplayChatCompletionClient.init [.text "Hi"] none).create
        []).2).create [] =
      (.error "No more mock responses available",
        ((ReplayChatCompletionClient.init [.text "Hi"] none).create []).2) ∧
    (((ReplayChatCompletionClient.init [.text "Hi"] none).create
        []).2).create_stream [] =
      (.error "No more mock responses available",
        ((ReplayChatCompletionClient.init [.text "Hi"] none).create
          []).2) := by
  exact c10_exhausted_frame
    (((ReplayChatCompletionClient.init [.text "Hi"] none).create []).2) []
    (by decide)
